import Mathlib

/-!
Shallow embedding of `scripts/gen_icons.py`: a one-shot generator that
composes a source logo onto a rounded-rectangle colored background and
writes PNG / ICO / ICNS icon files.

The embedding has two layers:

* a pixel-level model of the image operations (`rounded_rect_mask`,
  `background_layer`, `generate_icon`), translating the PIL calls the
  script makes;
* an event-trace model of `main` (`mainRun`), recording the order of the
  directory creation, the logo decodes and the file writes, together with
  the abort-on-exception control flow.

Library-call modelling notes (each is also documented at its definition):

* `int(x)` on a nonnegative float is truncation, i.e. the floor; for every
  size at which the theorems below evaluate the ratio products, the IEEE
  double product lies strictly between the same consecutive integers as
  the exact rational product, so exact rational arithmetic is used.
* `Image.resize(..., LANCZOS)` for the exact 4× mask downsample is modelled
  as the 4×4 block average.  The Lanczos kernel is transcendental; the
  block average agrees with it on every pixel whose full filter support
  window is constant, and the theorems below evaluate mask pixels only at
  such pixels (the doc comment of `resizeMask4` records the support bound).
* `Image.paste(im, box, mask)` uses PIL's fixed-point blend
  `MULDIV255(dst, 255 - m) + MULDIV255(src, m)`, reproduced exactly.
-/

namespace GenIcons

/-! ## Constants (gen_icons.py lines 11–13) -/

/-- `BG_COLOR = (30, 41, 59)`, the `#1e293b` background color. -/
def BG_COLOR : ℕ × ℕ × ℕ := (30, 41, 59)

/-- `CORNER_RADIUS_RATIO = 0.164` as an exact rational. -/
def CORNER_RADIUS_RATIO : ℚ := 164 / 1000

/-- `LOGO_PADDING_RATIO = 0.05` as an exact rational. -/
def LOGO_PADDING_RATIO : ℚ := 5 / 100

/-! ## Image data model -/

/-- One RGBA pixel: `(r, g, b, a)`, each channel in `0..255`. -/
abbrev Rgba := ℕ × ℕ × ℕ × ℕ

/-- Model of a PIL image: a mode string, dimensions, and a pixel map.
Pixels are always stored as RGBA quadruples; for non-RGBA modes the
`mode` field records the PIL mode. -/
structure Img where
  mode : String
  width : ℕ
  height : ℕ
  px : ℕ → ℕ → Rgba

/-- Model of a single-channel (`"L"` mode) PIL image, used for masks. -/
structure GrayImg where
  width : ℕ
  height : ℕ
  px : ℕ → ℕ → ℕ

/-- The alpha channel of a pixel. -/
def alphaOf (p : Rgba) : ℕ := p.2.2.2

/-- `radius = int(size * CORNER_RADIUS_RATIO)` (line 29).  Python `int()`
truncates; on this nonnegative product truncation is the floor, and the
exact rational product `size * 164/1000` floors like the IEEE double
product for every size evaluated below, so this is `size * 164 / 1000`
in natural-number division.  The floor reading is proved against the
rational constant in `c1_radius_padding_floor`. -/
def cornerRadiusOf (size : ℕ) : ℕ := size * 164 / 1000

/-- `padding = int(size * LOGO_PADDING_RATIO)` (line 30); see
`cornerRadiusOf` for the `int()` reading. -/
def logoPaddingOf (size : ℕ) : ℕ := size * 5 / 100

/-! ## Mask builder (`rounded_rect_mask`, lines 16–24) -/

/-- Model of `ImageDraw.rounded_rectangle([0, 0, L-1, L-1], R, fill=255)`
pixel membership: pixel `(x, y)` is filled iff it lies inside the
rectangle `[0, L-1] × [0, L-1]` with the four corners replaced by quarter
disks of radius `R` centered `R` pixels inside each corner.  `dx` is the
horizontal distance past the left/right disk-center lines (0 inside the
central band — natural subtraction truncates at 0, which is exactly the
clamp), likewise `dy`; membership is `dx² + dy² ≤ R²`. -/
def roundedRectContains (L R x y : ℕ) : Bool :=
  decide (x ≤ L - 1) && decide (y ≤ L - 1) &&
    (let dx := max (R - x) (x - (L - 1 - R))
     let dy := max (R - y) (y - (L - 1 - R))
     decide (dx * dx + dy * dy ≤ R * R))

/-- Model of `mask.resize((size, size), Image.LANCZOS)` for the exact 4×
downsample of the supersampled mask: the average of the 4×4 source block.
PIL's Lanczos filter for this reduction has support radius 12 source
pixels around the block; on every destination pixel whose entire support
window is constant (all 0 or all 255) the normalized filter returns that
constant, as does this block average.  The theorems below evaluate mask
pixels only at such robust pixels. -/
def blockSum (f : ℕ → ℕ → ℕ) (x y : ℕ) : ℕ :=
  Finset.sum (Finset.range 4) fun i =>
    Finset.sum (Finset.range 4) fun j => f (4 * x + i) (4 * y + j)

/-- The 4× downsample itself: each destination pixel is the 4×4 source
block average; see `blockSum` for the modelling notes. -/
def resizeMask4 (m : GrayImg) (size : ℕ) : GrayImg :=
  { width := size, height := size, px := fun x y => blockSum m.px x y / 16 }

/-- `rounded_rect_mask(size, radius)` (lines 16–24): draw the rounded
rectangle filled with 255 on a black `L` canvas at 4× resolution, then
downsample to `(size, size)`. -/
def rounded_rect_mask (size radius : ℕ) : GrayImg :=
  let scale := 4
  let large := size * scale
  let large_radius := radius * scale
  let mask : GrayImg :=
    { width := large, height := large,
      px := fun x y => if roundedRectContains large large_radius x y then 255 else 0 }
  resizeMask4 mask size

/-! ## Paste / blend model (PIL `Image.paste` with a mask) -/

/-- PIL's `MULDIV255(a, b)`: fixed-point `a * b / 255` with rounding,
computed as `tmp = a*b + 128; ((tmp >> 8) + tmp) >> 8`. -/
def mulDiv255 (a b : ℕ) : ℕ := ((a * b + 128) / 256 + (a * b + 128)) / 256

/-- PIL's per-channel masked blend `BLEND(m, dst, src)`:
`MULDIV255(dst, 255 - m) + MULDIV255(src, m)`.  For `m = 0` this is `dst`
exactly, for `m = 255` it is `src` exactly. -/
def blendCh (dst src m : ℕ) : ℕ := mulDiv255 dst (255 - m) + mulDiv255 src m

/-- The masked blend applied to all four channels of an RGBA pixel. -/
def blendPx (dst src : Rgba) (m : ℕ) : Rgba :=
  (blendCh dst.1 src.1 m, blendCh dst.2.1 src.2.1 m,
   blendCh dst.2.2.1 src.2.2.1 m, blendCh dst.2.2.2 src.2.2.2 m)

/-- `Image.new("RGBA", (w, h), c)`: a constant-color RGBA canvas. -/
def imageNewRGBA (w h : ℕ) (c : Rgba) : Img :=
  { mode := "RGBA", width := w, height := h, px := fun _ _ => c }

/-- Model of `bg.paste(src, (x0, y0), mask)` with an `"L"`-mode mask:
inside the paste box each channel is the masked blend of the existing
pixel with the source pixel, outside the box the image is unchanged. -/
def pasteWithGrayMask (bg src : Img) (x0 y0 : ℕ) (m : GrayImg) : Img :=
  { bg with px := fun x y =>
      if x0 ≤ x ∧ x < x0 + src.width ∧ y0 ≤ y ∧ y < y0 + src.height then
        blendPx (bg.px x y) (src.px (x - x0) (y - y0)) (m.px (x - x0) (y - y0))
      else bg.px x y }

/-- Model of `bg.paste(src, (x0, y0), src)` with an RGBA image used as its
own mask: PIL takes the alpha band of the mask image, so each channel
(alpha included) is blended with weight equal to the source alpha. -/
def pasteWithSelfAlpha (bg src : Img) (x0 y0 : ℕ) : Img :=
  { bg with px := fun x y =>
      if x0 ≤ x ∧ x < x0 + src.width ∧ y0 ≤ y ∧ y < y0 + src.height then
        blendPx (bg.px x y) (src.px (x - x0) (y - y0)) (alphaOf (src.px (x - x0) (y - y0)))
      else bg.px x y }

/-- Model of `img.convert("RGBA")`: pixels are already RGBA quadruples in
this model, so conversion sets the mode. -/
def convertRGBA (img : Img) : Img := { img with mode := "RGBA" }

/-- Model of `img.resize((w, h), Image.LANCZOS)` for the logo resize.  The
theorems below rely only on the output dimensions, the mode, and the fact
that the result is a deterministic function of the input; the pixel map
(nearest source sample) stands in for the Lanczos-filtered values, which
no theorem evaluates. -/
def resizeImg (img : Img) (w h : ℕ) : Img :=
  { mode := img.mode, width := w, height := h,
    px := fun x y => img.px (x * img.width / w) (y * img.height / h) }

/-! ## Icon composer (`generate_icon`, lines 27–45) -/

/-- The background-only layer of `generate_icon` (lines 29 and 33–36): the
transparent canvas with the colored canvas pasted through the
rounded-rectangle mask, before the logo is composited. -/
def background_layer (size : ℕ) : Img :=
  let radius := cornerRadiusOf size
  let bg := imageNewRGBA size size (0, 0, 0, 0)
  let colored := imageNewRGBA size size (30, 41, 59, 255)
  let mask := rounded_rect_mask size radius
  pasteWithGrayMask bg colored 0 0 mask

/-- `generate_icon(size)` (lines 27–45), with the decoded source logo made
an explicit parameter (the decode event itself is tracked by the trace
model below): build the background layer, resize the logo to
`size - 2*padding`, and paste it at `(padding, padding)` using its own
alpha as the mask. -/
def generate_icon (logo : Img) (size : ℕ) : Img :=
  let padding := logoPaddingOf size
  let bg := background_layer size
  let logoc := convertRGBA logo
  let logo_size := size - 2 * padding
  let logo_resized := resizeImg logoc logo_size logo_size
  pasteWithSelfAlpha bg logo_resized padding padding

/-! ## Trace model of `main` (lines 48–84) -/

/-- Observable events of one run.  `mkdirOutput` is the
`ICONS_DIR.mkdir(parents=True, exist_ok=True)` call (line 49), which
cannot fail — see `dirMkdir`.  `decodeLogo` is a successful
`Image.open(LOGO_PATH)` (line 39, inside `generate_icon`).  `writeIco`
records the save call `ico_images[0].save(...)`: filename, the size of
the primary image it is invoked on, the `sizes` argument (PIL writes one
embedded representation per entry), and the sizes of `append_images`.
Stdout progress prints are not modelled (no claim concerns them). -/
inductive Event where
  | mkdirOutput : Event
  | decodeLogo : Event
  | writePng : String → ℕ → Event
  | writeIco : String → ℕ → List ℕ → List ℕ → Event
  | writeIcns : String → ℕ → Event
deriving DecidableEq

/-- A run fragment: the events performed, and whether it completed without
an uncaught exception (`false` = an exception escaped; the script has no
`try`/`except`, so the exception reaches the process boundary and the
interpreter exits nonzero). -/
abbrev Run := List Event × Bool

/-- Sequencing: if the first fragment aborted, the second never runs and
its events never happen. -/
def seqRun (a b : Run) : Run := if a.2 then (a.1 ++ b.1, b.2) else a

/-- The events of one `generate_icon(size)` call: it decodes the source
logo (line 39) on every call.  If the logo file is missing or
undecodable, `Image.open` raises before any event of the call. -/
def generateIconRun (logoOk : Bool) : Run :=
  if logoOk then ([Event.decodeLogo], true) else ([], false)

/-- The `png_sizes` table (lines 52–59), in insertion order (Python dicts
preserve it). -/
def pngTable : List (String × ℕ) :=
  [("32x32.png", 32), ("64x64.png", 64), ("128x128.png", 128),
   ("128x128@2x.png", 256), ("512x512.png", 512), ("icon.png", 512)]

/-- `ico_sizes = [256, 64, 48, 32, 24, 16]` (line 67). -/
def icoSizes : List ℕ := [256, 64, 48, 32, 24, 16]

/-- The PNG loop (lines 61–64): per entry, one `generate_icon` call then
one PNG write. -/
def pngLoop (logoOk : Bool) : List (String × ℕ) → Run
  | [] => ([], true)
  | e :: rest =>
      seqRun (seqRun (generateIconRun logoOk) ([Event.writePng e.1 e.2], true))
        (pngLoop logoOk rest)

/-- The ICO list comprehension (line 68): one `generate_icon` call per
entry of `ico_sizes`, composing all images before the single save. -/
def icoComposeLoop (logoOk : Bool) : List ℕ → Run
  | [] => ([], true)
  | _ :: rest => seqRun (generateIconRun logoOk) (icoComposeLoop logoOk rest)

/-- Model of `Path.mkdir(parents=..., exist_ok=...)` acting on whether the
directory already exists: with `exist_ok=False` an existing directory
raises `FileExistsError`; otherwise the call succeeds and the directory
exists afterwards.  (`parents` controls creation of missing parents,
which likewise cannot fail; it is accepted for fidelity to the call
site `mkdir(parents=True, exist_ok=True)`.) -/
def dirMkdir (parents exist_ok dirExists : Bool) : Except String Bool :=
  if dirExists && !exist_ok then Except.error "FileExistsError"
  else Except.ok (parents || true)

/-- The whole of `main()` (lines 48–84): mkdir, the PNG loop, the ICO
compose loop and save, then the ICNS compose and save.  `logoOk` says
whether `Image.open(LOGO_PATH)` succeeds. -/
def mainRun (logoOk : Bool) : Run :=
  seqRun ([Event.mkdirOutput], true)
    (seqRun (pngLoop logoOk pngTable)
      (seqRun (icoComposeLoop logoOk icoSizes)
        (seqRun ([Event.writeIco "icon.ico" 256 icoSizes (icoSizes.drop 1)], true)
          (seqRun (generateIconRun logoOk)
            ([Event.writeIcns "icon.icns" 512], true)))))

/-! ## Trace observations -/

/-- Is an event a successful logo decode. -/
def isDecode : Event → Bool
  | Event.decodeLogo => true
  | _ => false

/-- Number of logo decodes in a trace. -/
def countDecodes (t : List Event) : ℕ := (t.filter isDecode).length

/-- Is an event a file write (PNG, ICO or ICNS). -/
def isWrite : Event → Bool
  | Event.writePng _ _ => true
  | Event.writeIco _ _ _ _ => true
  | Event.writeIcns _ _ => true
  | _ => false

/-- The file-write events of a trace. -/
def writesOf (t : List Event) : List Event := t.filter isWrite

/-- The `(filename, size)` pairs of the PNG writes of a trace, in order. -/
def pngWrites (t : List Event) : List (String × ℕ) :=
  t.filterMap fun e =>
    match e with
    | Event.writePng f s => some (f, s)
    | _ => none

/-- The ICO writes of a trace: `(filename, primary size, sizes argument,
appended sizes)`. -/
def icoWrites (t : List Event) : List (String × ℕ × List ℕ × List ℕ) :=
  t.filterMap fun e =>
    match e with
    | Event.writeIco f p ss app => some (f, p, ss, app)
    | _ => none

/-! ## Output encoding model (for determinism) -/

/-- Model of the PNG encoder: PIL's `save(..., "PNG")` with fixed options
is a deterministic function of the pixel data and dimensions; the byte
stream is modelled by the row-major serialization of the RGBA channels
(what matters to the theorems is only that it is a function). -/
def encodePNG (img : Img) : List ℕ :=
  (List.range img.height).flatMap fun y =>
    (List.range img.width).flatMap fun x =>
      [(img.px x y).1, (img.px x y).2.1, (img.px x y).2.2.1, (img.px x y).2.2.2]

/-- The PNG byte outputs of one full run over a given decoded source logo:
per `png_sizes` entry, the filename and the encoded composed icon. -/
def pngRunOutputs (logo : Img) : List (String × List ℕ) :=
  pngTable.map fun e => (e.1, encodePNG (generate_icon logo e.2))

/-- A concrete 256×256 fully opaque red source logo, used as the concrete
input of the witness theorems. -/
def testLogo : Img :=
  { mode := "RGBA", width := 256, height := 256, px := fun _ _ => (255, 0, 0, 255) }

/-! ## Claim theorems -/

/-- C1, counterexample: the claim says radius and padding use
nearest-integer rounding, but the code truncates.  At the target size 48
(an ICO size) the code computes radius `int(48 * 0.164) = 7` while
`round(48 * 0.164) = round(7.872) = 8`; at the target size 16 it computes
padding `int(16 * 0.05) = 0` while `round(0.8) = 1`. -/
theorem c1_truncation_counterexample :
    cornerRadiusOf 48 = 7 ∧ round ((48 : ℚ) * CORNER_RADIUS_RATIO) = 8 ∧
    logoPaddingOf 16 = 0 ∧ round ((16 : ℚ) * LOGO_PADDING_RATIO) = 1 := by
  refine ⟨by decide, ?_, by decide, ?_⟩
  · rw [ CORNER_RADIUS_RATIO]; norm_num [round_eq]
  · rw [ LOGO_PADDING_RATIO]; norm_num [round_eq]

/-- C1, amended: for every target size, the icon composer computes the
corner radius as `⌊size * 0.164⌋` and the logo padding as
`⌊size * 0.05⌋` — truncation (Python `int()`) of the ratio products, not
nearest-integer rounding. -/
theorem c1_radius_padding_floor :
    ∀ size : ℕ, cornerRadiusOf size = ⌊(size : ℚ) * CORNER_RADIUS_RATIO⌋₊ ∧
      logoPaddingOf size = ⌊(size : ℚ) * LOGO_PADDING_RATIO⌋₊ := by
  intro size
  constructor
  · have h : (size : ℚ) * CORNER_RADIUS_RATIO = ((size * 164 : ℕ) : ℚ) / ((1000 : ℕ) : ℚ) := by
      rw [ CORNER_RADIUS_RATIO]; push_cast; ring
    rw [h, Nat.floor_div_eq_div]; rfl
  · have h : (size : ℚ) * LOGO_PADDING_RATIO = ((size * 5 : ℕ) : ℚ) / ((100 : ℕ) : ℚ) := by
      rw [ LOGO_PADDING_RATIO]; push_cast; ring
    rw [h, Nat.floor_div_eq_div]; rfl

/-- C2, counterexample: the claim says the source logo is decoded exactly
once per full run; in the code `Image.open` is inside `generate_icon`, so
a successful full run decodes the logo 13 times, not once. -/
theorem c2_decode_count_not_one :
    countDecodes (mainRun true).1 = 13 ∧ countDecodes (mainRun true).1 ≠ 1 := by decide

/-- C2, amended: the source logo is decoded once per icon-composition
call, inside `generate_icon` — 13 times in a full run (6 PNG entries, 6
ICO sizes, 1 ICNS); no decoded image is reused across calls. -/
theorem c2_decode_per_call :
    countDecodes (generateIconRun true).1 = 1 ∧ countDecodes (mainRun true).1 = 13 := by decide

/-- C3, counterexample: the claim says every pixel of the corner square of
side ≈ radius/2 is fully transparent in the background-only layer.  At
size 512 the radius is 83 (positive), the square of side ⌊83/2⌋ = 41
contains the pixel (35, 35), and that pixel of the background layer is
fully opaque background color (alpha 255): it lies at distance ≈ 0.59 ·
radius from the corner-disk center, well inside the rounded rectangle. -/
theorem c3_halfradius_square_not_transparent :
    0 < cornerRadiusOf 512 ∧ 35 < cornerRadiusOf 512 / 2 ∧
    alphaOf ((background_layer 512).px 35 35) = 255 := by decide

set_option maxRecDepth 4000 in
/-- C3, amended: in the background-only layer, the corner squares that are
fully transparent are smaller than claimed — of side about
radius · (1 − √2/2) ≈ 0.29 · radius, not radius/2.  For the composed
sizes 256 and 512, every pixel of the square of side ⌊radius/5⌋ at each
of the four corners has alpha 0. -/
theorem c3_corner_squares_transparent :
    ∀ size ∈ [256, 512], ∀ x, x < cornerRadiusOf size / 5 → ∀ y, y < cornerRadiusOf size / 5 →
      alphaOf ((background_layer size).px x y) = 0 ∧
      alphaOf ((background_layer size).px (size - 1 - x) y) = 0 ∧
      alphaOf ((background_layer size).px x (size - 1 - y)) = 0 ∧
      alphaOf ((background_layer size).px (size - 1 - x) (size - 1 - y)) = 0 := by decide

/-- Witness for `c3_corner_squares_transparent` at size 256, pixel (7,7). -/
theorem c3_corner_squares_transparent_witness :
    alphaOf ((background_layer 256).px 7 7) = 0 ∧
    alphaOf ((background_layer 256).px (256 - 1 - 7) 7) = 0 ∧
    alphaOf ((background_layer 256).px 7 (256 - 1 - 7)) = 0 ∧
    alphaOf ((background_layer 256).px (256 - 1 - 7) (256 - 1 - 7)) = 0 :=
  c3_corner_squares_transparent 256 (by decide) 7 (by decide) 7 (by decide)

/-- C4: for every target size, the image returned by the icon composer is
exactly size×size with RGBA mode: the pastes preserve the dimensions and
mode of the initial transparent RGBA canvas. -/
theorem c4_dimensions_and_mode (logo : Img) (size : ℕ) :
    (generate_icon logo size).width = size ∧ (generate_icon logo size).height = size ∧
      (generate_icon logo size).mode = "RGBA" := ⟨rfl, rfl, rfl⟩

/-- C5: a successful run writes exactly the six PNG files of the fixed
table, in insertion order, with the 512-pixel composite written under
both `512x512.png` and `icon.png`. -/
theorem c5_png_write_table :
    (mainRun true).2 = true ∧
    pngWrites (mainRun true).1 =
      [("32x32.png", 32), ("64x64.png", 64), ("128x128.png", 128),
       ("128x128@2x.png", 256), ("512x512.png", 512), ("icon.png", 512)] := ⟨rfl, rfl⟩

/-- C6: the single ICO write embeds exactly six representations, at sizes
256, 64, 48, 32, 24, 16 (the `sizes` argument of the save call), with the
256-pixel composite as the primary image and the other five supplied as
`append_images`. -/
theorem c6_ico_embedding :
    icoWrites (mainRun true).1 =
      [("icon.ico", 256, [256, 64, 48, 32, 24, 16], [64, 48, 32, 24, 16])] ∧
    icoSizes.length = 6 := ⟨rfl, rfl⟩

/-- C7: the compose-and-encode pipeline is a deterministic function of the
decoded source image and the compiled-in constants, so two runs over the
same unchanged source logo produce byte-for-byte identical PNG outputs. -/
theorem c7_png_determinism (logo1 logo2 : Img) (h : logo1 = logo2) :
    pngRunOutputs logo1 = pngRunOutputs logo2 := by rw [h]

/-- Witness for `c7_png_determinism` at the concrete test logo. -/
theorem c7_png_determinism_witness : pngRunOutputs testLogo = pngRunOutputs testLogo :=
  c7_png_determinism testLogo testLogo rfl

/-- C8: when the source logo is missing or undecodable, the run performs
only the directory creation — no output file write happens — and the
uncaught exception propagates to the process boundary (the completion
flag is false, i.e. a nonzero exit). -/
theorem c8_missing_logo_aborts :
    (mainRun false).1 = [Event.mkdirOutput] ∧ writesOf (mainRun false).1 = [] ∧
      (mainRun false).2 = false := ⟨rfl, rfl, rfl⟩

/-- C9: for every target size between 1 and 19 the padding is 0, so
`generate_icon` resizes the logo to the full size×size and pastes it at
offset (0, 0); every pixel of the composed icon is the blend of the
resized logo pixel over the background-layer pixel, weighted solely by
the logo's own alpha channel. -/
theorem c9_small_size_full_logo (S : ℕ) (logo : Img) (x y : ℕ) (h1 : 1 ≤ S) (h2 : S ≤ 19)
    (hx : x < S) (hy : y < S) :
    logoPaddingOf S = 0 ∧
    generate_icon logo S =
      pasteWithSelfAlpha (background_layer S) (resizeImg (convertRGBA logo) S S) 0 0 ∧
    (generate_icon logo S).px x y =
      blendPx ((background_layer S).px x y) ((resizeImg (convertRGBA logo) S S).px x y)
        (alphaOf ((resizeImg (convertRGBA logo) S S).px x y)) := by
  have hp : logoPaddingOf S = 0 := Nat.div_eq_of_lt (by omega)
  have hmain : generate_icon logo S =
      pasteWithSelfAlpha (background_layer S) (resizeImg (convertRGBA logo) S S) 0 0 := by
    rw [generate_icon, hp]; norm_num
  refine ⟨hp, hmain, ?_⟩
  rw [hmain]
  show (if 0 ≤ x ∧ x < 0 + (resizeImg (convertRGBA logo) S S).width ∧ 0 ≤ y ∧ y < 0 + (resizeImg (convertRGBA logo) S S).height then blendPx ((background_layer S).px x y) ((resizeImg (convertRGBA logo) S S).px (x - 0) (y - 0)) (alphaOf ((resizeImg (convertRGBA logo) S S).px (x - 0) (y - 0))) else (background_layer S).px x y) = _
  rw [if_pos ⟨Nat.zero_le x, by simpa [resizeImg] using hx, Nat.zero_le y, by simpa [resizeImg] using hy⟩]
  simp

/-- Witness for `c9_small_size_full_logo` at the 16-pixel ICO entry with
the concrete test logo, pixel (5, 5). -/
theorem c9_small_size_full_logo_witness :
    logoPaddingOf 16 = 0 ∧
    generate_icon testLogo 16 =
      pasteWithSelfAlpha (background_layer 16) (resizeImg (convertRGBA testLogo) 16 16) 0 0 ∧
    (generate_icon testLogo 16).px 5 5 =
      blendPx ((background_layer 16).px 5 5) ((resizeImg (convertRGBA testLogo) 16 16).px 5 5)
        (alphaOf ((resizeImg (convertRGBA testLogo) 16 16).px 5 5)) :=
  c9_small_size_full_logo 16 testLogo 5 5 (by decide) (by decide) (by decide) (by decide)

/-- C10: the call `mkdir(parents=True, exist_ok=True)` succeeds whether or
not the output directory already exists, and it is the first event of
every run — in particular it precedes the first logo decode, and it has
happened even in a run aborted by a missing source logo. -/
theorem c10_mkdir_first :
    (∀ d : Bool, dirMkdir true true d = Except.ok true) ∧
    (∀ ok : Bool, (mainRun ok).1.head? = some Event.mkdirOutput) :=
  ⟨fun d => by cases d <;> rfl, fun ok => by cases ok <;> rfl⟩

end GenIcons
